import Mathlib

/-
Verification of the boundary-computation and decision engine of the `opl`
repository (src/opl/investigator/check.py and the decision loop of
src/opl/pass_or_fail.py).

Numbers are modelled exactly: the Python floats become rationals, except for
the square root taken by statistics.stdev, which is modelled in ℝ.
Fallible computations (statistics.mean / statistics.stdev raising
StatisticsError, scipy.stats.trimboth raising ValueError) return Option.
-/

namespace OPL

/-- Insert a rational into a list, keeping a sorted list sorted. -/
def insertSorted (x : ℚ) : List ℚ → List ℚ
  | [] => [x]
  | y :: ys => if x ≤ y then x :: y :: ys else y :: insertSorted x ys

/-- Insertion sort.  Models the ordering step performed by numpy partition
inside scipy.stats.trimboth / scipy.stats.trim_mean: the slice those
functions keep is, as a multiset, the slice of the fully sorted data. -/
def sortList : List ℚ → List ℚ
  | [] => []
  | x :: xs => insertSorted x (sortList xs)

/-- statistics.mean: arithmetic mean.  The Python library raises
StatisticsError on empty data; callers below guard for that, so the value
here matters only for non-empty lists. -/
def listMean (l : List ℚ) : ℚ := l.sum / l.length

/-- Python min() of a list; the source only applies it to non-empty lists
(scipy raises before an empty trimmed list could reach it). -/
def listMin : List ℚ → ℚ
  | [] => 0
  | x :: xs => xs.foldl min x

/-- Python max() of a list, as for `listMin`. -/
def listMax : List ℚ → ℚ
  | [] => 0
  | x :: xs => xs.foldl max x

/-- Number of elements scipy.stats.trimboth / trim_mean cuts from each end:
`int(proportiontocut * nobs)`, i.e. the floor for the non-negative trim
fractions the program ships. -/
def lowercut (t : ℚ) (n : ℕ) : ℕ := (t * n).floor.toNat

/-- scipy.stats.trimboth: keep the slice `[lowercut : nobs - lowercut]` of
the (partially) sorted data, i.e. drop the lowest `lowercut` and the highest
`lowercut` values.  scipy raises ValueError when the slice would be empty;
here the slice is simply empty and callers guard on its length. -/
def trimboth (data : List ℚ) (t : ℚ) : List ℚ :=
  ((sortList data).drop (lowercut t data.length)).take
    (data.length - 2 * lowercut t data.length)

/-- scipy.stats.trim_mean: the mean of the same slice `trimboth` keeps. -/
def trim_mean (data : List ℚ) (t : ℚ) : ℚ := listMean (trimboth data t)

/-- Unbiased sample variance (denominator n − 1): the quantity whose square
root statistics.stdev returns.  statistics.stdev raises StatisticsError for
fewer than two data points; callers guard on the length. -/
def sampleVariance (l : List ℚ) : ℚ :=
  (l.map (fun x => (x - listMean l) ^ 2)).sum / ((l.length : ℚ) - 1)

/-- statistics.stdev: square root of the unbiased sample variance. -/
noncomputable def pyStdev (l : List ℚ) : ℝ := Real.sqrt (sampleVariance l)

/-- A value stored in one of the OrderedDict diagnostic records. -/
inductive FieldVal where
  | s (v : String)
  | q (v : ℚ)
  | n (v : ℕ)
deriving DecidableEq, Repr

/-- Result of one run of `_check_by_error`: the verdict together with every
entry of the OrderedDict it builds.  `method` models the
`inspect.stack()[1][3]` caller-name capture: each named wrapper passes its
own name. -/
structure ErrorResult where
  method : String
  value : ℚ
  boost : ℚ
  dataLen : ℕ
  mean : ℚ
  error : ℚ
  lower : ℚ
  upper : ℚ
  verdict : Bool
deriving DecidableEq, Repr

/-- The OrderedDict built by `_check_by_error`, in its exact field order. -/
def ErrorResult.info (r : ErrorResult) : List (String × FieldVal) :=
  [("method", FieldVal.s r.method),
   ("value", FieldVal.q r.value),
   ("boost", FieldVal.q r.boost),
   ("data len", FieldVal.n r.dataLen),
   ("data mean", FieldVal.q r.mean),
   ("data error", FieldVal.q r.error),
   ("lower_boundary", FieldVal.q r.lower),
   ("upper_boundary", FieldVal.q r.upper)]

/-- `_check_by_error(data, value, boost)`: mean-absolute-error strategy.
centre = mean of the full sample, dispersion = mean absolute deviation from
that centre, bounds = centre ∓ dispersion·boost, verdict =
`lower_boundary <= value <= upper_boundary`.  `none` models the
StatisticsError that statistics.mean raises on empty data. -/
def _check_by_error (data : List ℚ) (value : ℚ) (boost : ℚ) (method : String) :
    Option ErrorResult :=
  if data.length = 0 then none
  else
    let mean := listMean data
    let error := listMean (data.map (fun i => |i - mean|))
    let lower := mean - error * boost
    let upper := mean + error * boost
    some ⟨method, value, boost, data.length, mean, error, lower, upper,
      decide (lower ≤ value ∧ value ≤ upper)⟩

/-- check_by_error_1: mean-absolute-error, boost 1. -/
def check_by_error_1 (data : List ℚ) (value : ℚ) : Option ErrorResult :=
  _check_by_error data value 1 "check_by_error_1"

/-- check_by_error_2: mean-absolute-error, boost 2. -/
def check_by_error_2 (data : List ℚ) (value : ℚ) : Option ErrorResult :=
  _check_by_error data value 2 "check_by_error_2"

/-- check_by_error_3: mean-absolute-error, boost 3. -/
def check_by_error_3 (data : List ℚ) (value : ℚ) : Option ErrorResult :=
  _check_by_error data value 3 "check_by_error_3"

/-- Result of one run of `_check_by_perc`. -/
structure PercResult where
  method : String
  value : ℚ
  perc : ℚ
  dataLen : ℕ
  mean : ℚ
  lower : ℚ
  upper : ℚ
  verdict : Bool
deriving DecidableEq, Repr

/-- `_check_by_perc(data, value, perc)`: percentage-of-mean strategy.
centre = mean of the full sample, half-width = mean·(perc/100/2), bounds =
centre ∓ half-width. -/
def _check_by_perc (data : List ℚ) (value : ℚ) (perc : ℚ) (method : String) :
    Option PercResult :=
  if data.length = 0 then none
  else
    let mean := listMean data
    let lower := mean - mean * (perc / 100 / 2)
    let upper := mean + mean * (perc / 100 / 2)
    some ⟨method, value, perc, data.length, mean, lower, upper,
      decide (lower ≤ value ∧ value ≤ upper)⟩

/-- check_by_perc_40: percentage-of-mean, width 40. -/
def check_by_perc_40 (data : List ℚ) (value : ℚ) : Option PercResult :=
  _check_by_perc data value 40 "check_by_perc_40"

/-- check_by_perc_60: percentage-of-mean, width 60. -/
def check_by_perc_60 (data : List ℚ) (value : ℚ) : Option PercResult :=
  _check_by_perc data value 60 "check_by_perc_60"

/-- check_by_perc_100: despite its name it passes perc=60, exactly as
check_by_perc_60 does. -/
def check_by_perc_100 (data : List ℚ) (value : ℚ) : Option PercResult :=
  _check_by_perc data value 60 "check_by_perc_100"

/-- Result of one run of `_check_by_min_max`. -/
structure MinMaxResult where
  method : String
  value : ℚ
  trim : ℚ
  boost : ℚ
  dataLen : ℕ
  mean : ℚ
  lower : ℚ
  upper : ℚ
  verdict : Bool
deriving DecidableEq, Repr

/-- `_check_by_min_max(data, value, trim, boost)`: trimmed min/max strategy.
centre = mean of the FULL sample, extremes from the trimmed sample,
lower = centre − (centre − min)·boost, upper = centre + (max − centre)·boost.
`none` models statistics.mean raising on empty data (evaluated first) and
scipy.stats.trimboth raising ValueError when the trimmed slice is empty. -/
def _check_by_min_max (data : List ℚ) (value : ℚ) (trim : ℚ) (boost : ℚ)
    (method : String) : Option MinMaxResult :=
  if data.length = 0 then none
  else
    let mean := listMean data
    let data_trimmed := trimboth data trim
    if data_trimmed.length = 0 then none
    else
      let lower := mean - (mean - listMin data_trimmed) * boost
      let upper := mean + (listMax data_trimmed - mean) * boost
      some ⟨method, value, trim, boost, data.length, mean, lower, upper,
        decide (lower ≤ value ∧ value ≤ upper)⟩

/-- check_by_min_max_7_1: trimmed min/max, trim 0.07, boost 1. -/
def check_by_min_max_7_1 (data : List ℚ) (value : ℚ) : Option MinMaxResult :=
  _check_by_min_max data value (7 / 100) 1 "check_by_min_max_7_1"

/-- check_by_min_max_7_2: trimmed min/max, trim 0.07, boost 2. -/
def check_by_min_max_7_2 (data : List ℚ) (value : ℚ) : Option MinMaxResult :=
  _check_by_min_max data value (7 / 100) 2 "check_by_min_max_7_2"

/-- Result of one run of `_check_by_stdev`.  The standard deviation and the
bounds derived from it live in ℝ because of the square root. -/
structure StdevResult where
  method : String
  value : ℚ
  trim : ℚ
  boost : ℚ
  dataLen : ℕ
  mean : ℚ
  stdev : ℝ
  lower : ℝ
  upper : ℝ
  verdict : Bool

open Classical in
/-- `_check_by_stdev(data, value, trim, boost)`: (trimmed) standard-deviation
strategy.  centre = scipy.stats.trim_mean(data, trim), dispersion =
statistics.stdev(scipy.stats.trimboth(data, trim)), bounds =
centre ∓ dispersion·boost.  `none` models the error paths: scipy raises
ValueError when the trimmed slice would be empty and statistics.stdev raises
StatisticsError on fewer than two points — together, a trimmed slice of
length < 2 aborts the strategy before any bound or verdict is produced. -/
noncomputable def _check_by_stdev (data : List ℚ) (value : ℚ) (trim : ℚ)
    (boost : ℚ) (method : String) : Option StdevResult :=
  let trimmed := trimboth data trim
  if trimmed.length < 2 then none
  else
    let mean := trim_mean data trim
    let stdev := pyStdev trimmed
    let lower := (mean : ℝ) - stdev * (boost : ℝ)
    let upper := (mean : ℝ) + stdev * (boost : ℝ)
    some ⟨method, value, trim, boost, data.length, mean, stdev, lower, upper,
      decide (lower ≤ (value : ℝ) ∧ (value : ℝ) ≤ upper)⟩

/-- check_by_stdev: no trim, boost 1. -/
noncomputable def check_by_stdev (data : List ℚ) (value : ℚ) :
    Option StdevResult :=
  _check_by_stdev data value 0 1 "check_by_stdev"

/-- check_by_stdev_2: no trim, boost 2. -/
noncomputable def check_by_stdev_2 (data : List ℚ) (value : ℚ) :
    Option StdevResult :=
  _check_by_stdev data value 0 2 "check_by_stdev_2"

/-- check_by_trim_stdev: trim 0.1, boost 1. -/
noncomputable def check_by_trim_stdev (data : List ℚ) (value : ℚ) :
    Option StdevResult :=
  _check_by_stdev data value (1 / 10) 1 "check_by_trim_stdev"

/-- check_by_trim_stdev_2: trim 0.1, boost 2. -/
noncomputable def check_by_trim_stdev_2 (data : List ℚ) (value : ℚ) :
    Option StdevResult :=
  _check_by_stdev data value (1 / 10) 2 "check_by_trim_stdev_2"

/-- Python truthiness of the `(verdict, info)` tuple that check_by_stdev
returns: a tuple is truthy exactly when it is non-empty, and this pair
always has two components, so the test never looks at the verdict. -/
def pyTruthyPair (_r : StdevResult) : Bool := true

/-- The per-variable verdict string printed by pass_or_fail.main:
`result = opl.investigator.check.check_by_stdev(history[var], current[var])`
followed by `'PASS' if result else 'FAIL'`, where `result` is the whole
returned pair. -/
noncomputable def mainVariableVerdict (history : List ℚ) (current : ℚ) :
    Option String :=
  (check_by_stdev history current).map
    (fun r => if pyTruthyPair r then "PASS" else "FAIL")

/-- The full per-strategy record built by `check`: the description, the
PASS/FAIL rendering of the verdict, then the strategy's own OrderedDict. -/
def infoFull (description : String) (r : ErrorResult) :
    List (String × FieldVal) :=
  ("description", FieldVal.s description) ::
  ("result", FieldVal.s (if r.verdict then "PASS" else "FAIL")) :: r.info

/-- The strategy list hard-coded in `check`: `methods = [check_by_error_3]`. -/
def checkMethods : List (List ℚ → ℚ → Option ErrorResult) := [check_by_error_3]

/-- The loop body of `check`: run each method in order, collecting the
verdicts and the full records in parallel lists; an exception in any
strategy aborts the whole call. -/
def runChecks (methods : List (List ℚ → ℚ → Option ErrorResult))
    (data : List ℚ) (value : ℚ) (description : String) :
    Option (List Bool × List (List (String × FieldVal))) :=
  match methods with
  | [] => some ([], [])
  | m :: rest => do
    let r ← m data value
    let (results, infos) ← runChecks rest data value description
    return (r.verdict :: results, infoFull description r :: infos)

/-- `check(data, value, description)`: the orchestrator.  The candidate
value is asserted non-None on entry; here it is a genuine ℚ by type. -/
def check (data : List ℚ) (value : ℚ) (description : String) :
    Option (List Bool × List (List (String × FieldVal))) :=
  runChecks checkMethods data value description

/-
Spec-side definitions, written after the specification text of §4.1, to be
compared with the source-side `trimboth` / `trim_mean` / `pyStdev`.
-/

/-- Spec-side trimming: remove the lowest `t` fraction and the highest `t`
fraction of the sorted sample values, rounded down to whole elements removed
per end, and keep the remainder. -/
def specTrimmedSample (data : List ℚ) (t : ℚ) : List ℚ :=
  let k := (t * data.length).floor.toNat
  (((sortList data).drop k).reverse.drop k).reverse

/-- Spec-side centre: the average of the trimmed remainder. -/
def specTrimmedMean (data : List ℚ) (t : ℚ) : ℚ :=
  listMean (specTrimmedSample data t)

/-
Helper lemmas.
-/

lemma insertSorted_length (x : ℚ) (l : List ℚ) :
    (insertSorted x l).length = l.length + 1 := by
  induction l with
  | nil => rfl
  | cons y ys ih => by_cases h : x ≤ y <;> simp [insertSorted, h, ih]

lemma sortList_length (l : List ℚ) : (sortList l).length = l.length := by
  induction l with
  | nil => rfl
  | cons x xs ih => simp [sortList, insertSorted_length, ih]

lemma specTrimmedSample_eq_trimboth (data : List ℚ) (t : ℚ) :
    specTrimmedSample data t = trimboth data t := by
  unfold specTrimmedSample trimboth lowercut
  rw [← List.rdrop_eq_reverse_drop_reverse, List.rdrop, List.length_drop,
    sortList_length, Nat.sub_sub, two_mul]

lemma trimboth_length_le (data : List ℚ) (t : ℚ) :
    (trimboth data t).length ≤ data.length := by
  simp only [trimboth, List.length_take, List.length_drop, sortList_length]
  omega

lemma foldl_min_le_init (l : List ℚ) (a : ℚ) : l.foldl min a ≤ a := by
  induction l generalizing a with
  | nil => exact le_refl a
  | cons y ys ih => exact le_trans (ih (min a y)) (min_le_left a y)

lemma init_le_foldl_max (l : List ℚ) (a : ℚ) : a ≤ l.foldl max a := by
  induction l generalizing a with
  | nil => exact le_refl a
  | cons y ys ih => exact le_trans (le_max_left a y) (ih (max a y))

lemma listMin_le_listMax {l : List ℚ} (h : l ≠ []) : listMin l ≤ listMax l := by
  match l with
  | [] => exact absurd rfl h
  | x :: xs =>
    exact le_trans (foldl_min_le_init xs x) (init_le_foldl_max xs x)

lemma listMean_abs_nonneg (data : List ℚ) (m : ℚ) :
    0 ≤ listMean (data.map (fun i => |i - m|)) := by
  unfold listMean
  apply div_nonneg
  · apply List.sum_nonneg
    intro x hx
    obtain ⟨i, _, rfl⟩ := List.mem_map.mp hx
    exact abs_nonneg _
  · exact_mod_cast Nat.zero_le _

lemma within_bounds_of_eq_bound {α : Type} [LinearOrder α] {lo hi v : α}
    (hle : lo ≤ hi) (hv : v = lo ∨ v = hi) : lo ≤ v ∧ v ≤ hi := by
  rcases hv with rfl | rfl
  · exact ⟨le_refl _, hle⟩
  · exact ⟨hle, le_refl _⟩

/-
Claim theorems.
-/

/-- C4: for every non-empty historical sample and boost, the
mean-absolute-error strategy computes centre = arithmetic mean of the full
untrimmed sample, dispersion = mean of the absolute deviations of each
element from that centre, and bounds = centre ∓ dispersion·boost; in
particular on sample [8, 9, 10, 11, 12] with value 20 and boost 1 it
computes centre 10, dispersion 6/5 = 1.2, bounds [44/5, 56/5] = [8.8, 11.2]
and verdict FAIL. -/
theorem c4_error_strategy_formula (data : List ℚ) (value boost : ℚ)
    (m : String) (h : data ≠ []) :
    (∃ r, _check_by_error data value boost m = some r ∧
      r.mean = data.sum / data.length ∧
      r.error = (data.map (fun i => |i - data.sum / data.length|)).sum / data.length ∧
      r.lower = r.mean - r.error * boost ∧
      r.upper = r.mean + r.error * boost) ∧
    check_by_error_1 [8, 9, 10, 11, 12] 20 =
      some ⟨"check_by_error_1", 20, 1, 5, 10, 6 / 5, 44 / 5, 56 / 5, false⟩ := by
  have h0 : data.length ≠ 0 := by simpa [List.length_eq_zero] using h
  constructor
  · refine ⟨⟨m, value, boost, data.length, listMean data,
      listMean (data.map (fun i => |i - listMean data|)),
      listMean data - listMean (data.map (fun i => |i - listMean data|)) * boost,
      listMean data + listMean (data.map (fun i => |i - listMean data|)) * boost,
      decide (listMean data - listMean (data.map (fun i => |i - listMean data|)) * boost ≤ value ∧
        value ≤ listMean data + listMean (data.map (fun i => |i - listMean data|)) * boost)⟩,
      ?_, rfl, ?_, rfl, rfl⟩
    · unfold _check_by_error
      rw [if_neg h0]
    · simp [listMean]
  · with_unfolding_all decide

/-- C9: whenever the symmetrically trimmed subset contains fewer than 2
elements, the standard-deviation strategy fails before producing any bound
or verdict (modelled as `none`); in particular every sample of size 1 fails
under the trim-0.1 configuration check_by_trim_stdev. -/
theorem c9_stdev_insufficient_data (data : List ℚ) (value trim boost : ℚ)
    (m : String) (h : (trimboth data trim).length < 2) :
    _check_by_stdev data value trim boost m = none ∧
    ∀ q v, check_by_trim_stdev [q] v = none := by
  have hgen : ∀ (d : List ℚ) (v t b : ℚ) (s : String),
      (trimboth d t).length < 2 → _check_by_stdev d v t b s = none := by
    intro d v t b s hd
    unfold _check_by_stdev
    simp [hd]
  refine ⟨hgen data value trim boost m h, ?_⟩
  intro q v
  have hlen : (trimboth [q] (1 / 10)).length < 2 := by
    have hle := trimboth_length_le [q] (1 / 10)
    simp only [List.length_cons, List.length_nil] at hle
    omega
  exact hgen [q] v (1 / 10) 1 "check_by_trim_stdev" hlen

/-- C9 witness: at the size-1 sample [5] with trim 0.1, the trimmed subset
has fewer than 2 elements and the strategy returns none. -/
theorem c9_stdev_insufficient_data_witness :
    (trimboth [5] (1 / 10)).length < 2 ∧
    (_check_by_stdev [5] 3 (1 / 10) 1 "check_by_trim_stdev" = none ∧
      ∀ q v, check_by_trim_stdev [q] v = none) :=
  ⟨by with_unfolding_all decide,
   c9_stdev_insufficient_data [5] 3 (1 / 10) 1 "check_by_trim_stdev"
     (by with_unfolding_all decide)⟩

/-- C10: check_by_perc_100 computes exactly the same lower bound, upper
bound and verdict as check_by_perc_60 on every sample and candidate value:
it is a named alias that passes width 60, not width 100. -/
theorem c10_perc_100_is_alias_of_perc_60 (data : List ℚ) (value : ℚ) :
    (check_by_perc_100 data value).map (fun r => (r.lower, r.upper, r.verdict)) =
      (check_by_perc_60 data value).map (fun r => (r.lower, r.upper, r.verdict)) ∧
    check_by_perc_100 data value = _check_by_perc data value 60 "check_by_perc_100" := by
  refine ⟨?_, rfl⟩
  unfold check_by_perc_100 check_by_perc_60 _check_by_perc
  by_cases h : data.length = 0 <;> simp [h]

/-- C3: with the default strategy set the orchestrator `check` runs exactly
one strategy — check_by_error_3, the mean-absolute-error boost-3 strategy —
and returns one verdict and one parallel diagnostic record, the record
starting with the description field, then the PASS/FAIL verdict field, then
the method identifier, the candidate value, the boost parameter, the sample
size, the computed statistics and both bounds, in that order. -/
theorem c3_check_default_single_strategy (data : List ℚ) (value : ℚ)
    (description : String) (h : data ≠ []) :
    checkMethods = [check_by_error_3] ∧
    ∃ r, check_by_error_3 data value = some r ∧
      check data value description = some ([r.verdict], [infoFull description r]) ∧
      infoFull description r =
        [("description", FieldVal.s description),
         ("result", FieldVal.s (if r.verdict then "PASS" else "FAIL")),
         ("method", FieldVal.s "check_by_error_3"),
         ("value", FieldVal.q value),
         ("boost", FieldVal.q 3),
         ("data len", FieldVal.n data.length),
         ("data mean", FieldVal.q r.mean),
         ("data error", FieldVal.q r.error),
         ("lower_boundary", FieldVal.q r.lower),
         ("upper_boundary", FieldVal.q r.upper)] := by
  have h0 : data.length ≠ 0 := by simpa [List.length_eq_zero] using h
  have hr : check_by_error_3 data value = some ⟨"check_by_error_3", value, 3,
      data.length, listMean data, listMean (data.map (fun i => |i - listMean data|)),
      listMean data - listMean (data.map (fun i => |i - listMean data|)) * 3,
      listMean data + listMean (data.map (fun i => |i - listMean data|)) * 3,
      decide (listMean data - listMean (data.map (fun i => |i - listMean data|)) * 3 ≤ value ∧
        value ≤ listMean data + listMean (data.map (fun i => |i - listMean data|)) * 3)⟩ := by
    unfold check_by_error_3 _check_by_error
    rw [if_neg h0]
  refine ⟨rfl, _, hr, ?_, rfl⟩
  simp [check, checkMethods, runChecks, hr]

/-- C6: whenever check_by_stdev completes, the per-variable verdict string
selected by pass_or_fail.main is "PASS", whatever the strategy's boolean
verdict, because the truthiness of the whole returned (verdict, record)
pair — a non-empty tuple — is what gets tested. -/
theorem c6_main_prints_pass (history : List ℚ) (current : ℚ)
    (r : StdevResult) (h : check_by_stdev history current = some r) :
    mainVariableVerdict history current = some "PASS" := by
  unfold mainVariableVerdict
  rw [h]
  rfl

/-- C6 witness: on sample [5, 5] with current value 9 the strategy verdict
is FAIL (9 lies outside the zero-width interval [5, 5]), yet main selects
"PASS". -/
theorem c6_main_prints_pass_witness :
    check_by_stdev [5, 5] 9 =
      some ⟨"check_by_stdev", 9, 0, 1, 2, 5, 0, 5, 5, false⟩ ∧
    mainVariableVerdict [5, 5] 9 = some "PASS" := by
  have hv : sampleVariance (trimboth [5, 5] 0) = 0 := by with_unfolding_all decide
  have hm : trim_mean [5, 5] 0 = 5 := by with_unfolding_all decide
  have hlt : ¬((trimboth [5, 5] 0).length < 2) := by with_unfolding_all decide
  have hst : pyStdev (trimboth [5, 5] 0) = 0 := by
    unfold pyStdev
    rw [hv]
    norm_num
  have h : check_by_stdev [5, 5] 9 =
      some ⟨"check_by_stdev", 9, 0, 1, 2, 5, 0, 5, 5, false⟩ := by
    unfold check_by_stdev _check_by_stdev
    simp only [if_neg hlt, hst, hm, List.length_cons, List.length_nil]
    norm_num
  exact ⟨h, c6_main_prints_pass [5, 5] 9 _ h⟩

/-- C4 witness: the general formula applied to the worked example sample. -/
theorem c4_error_strategy_formula_witness :
    ([8, 9, 10, 11, 12] : List ℚ) ≠ [] ∧
    ((∃ r, _check_by_error [8, 9, 10, 11, 12] 20 1 "check_by_error_1" = some r ∧
      r.mean = ([8, 9, 10, 11, 12] : List ℚ).sum / ([8, 9, 10, 11, 12] : List ℚ).length ∧
      r.error = (([8, 9, 10, 11, 12] : List ℚ).map
        (fun i => |i - ([8, 9, 10, 11, 12] : List ℚ).sum /
          ([8, 9, 10, 11, 12] : List ℚ).length|)).sum /
        ([8, 9, 10, 11, 12] : List ℚ).length ∧
      r.lower = r.mean - r.error * 1 ∧
      r.upper = r.mean + r.error * 1) ∧
    check_by_error_1 [8, 9, 10, 11, 12] 20 =
      some ⟨"check_by_error_1", 20, 1, 5, 10, 6 / 5, 44 / 5, 56 / 5, false⟩) :=
  ⟨by with_unfolding_all decide,
   c4_error_strategy_formula [8, 9, 10, 11, 12] 20 1 "check_by_error_1"
     (by with_unfolding_all decide)⟩

/-- C3 witness: the orchestrator applied to a concrete sample. -/
theorem c3_check_default_single_strategy_witness :
    ([4, 6] : List ℚ) ≠ [] ∧
    (checkMethods = [check_by_error_3] ∧
    ∃ r, check_by_error_3 [4, 6] 5 = some r ∧
      check [4, 6] 5 "d" = some ([r.verdict], [infoFull "d" r]) ∧
      infoFull "d" r =
        [("description", FieldVal.s "d"),
         ("result", FieldVal.s (if r.verdict then "PASS" else "FAIL")),
         ("method", FieldVal.s "check_by_error_3"),
         ("value", FieldVal.q 5),
         ("boost", FieldVal.q 3),
         ("data len", FieldVal.n ([4, 6] : List ℚ).length),
         ("data mean", FieldVal.q r.mean),
         ("data error", FieldVal.q r.error),
         ("lower_boundary", FieldVal.q r.lower),
         ("upper_boundary", FieldVal.q r.upper)]) :=
  ⟨by with_unfolding_all decide,
   c3_check_default_single_strategy [4, 6] 5 "d" (by with_unfolding_all decide)⟩

/-- C7: for every sample whose trimmed set is non-empty, the trimmed
min/max strategy computes centre = arithmetic mean of the full untrimmed
sample (not of the trimmed set), lowerBound = centre − (centre −
min(trimmed set))·boost and upperBound = centre + (max(trimmed set) −
centre)·boost, where the trimmed set comes from the same `trimboth`
trimming the standard-deviation strategies use. -/
theorem c7_min_max_formula (data : List ℚ) (value t b : ℚ) (m : String)
    (h1 : data ≠ []) (h2 : trimboth data t ≠ []) :
    ∃ r, _check_by_min_max data value t b m = some r ∧
      r.mean = data.sum / data.length ∧
      r.lower = r.mean - (r.mean - listMin (trimboth data t)) * b ∧
      r.upper = r.mean + (listMax (trimboth data t) - r.mean) * b := by
  have h0 : data.length ≠ 0 := by simpa [List.length_eq_zero] using h1
  have ht0 : ¬((trimboth data t).length = 0) := by
    simpa [List.length_eq_zero] using h2
  refine ⟨⟨m, value, t, b, data.length, listMean data,
    listMean data - (listMean data - listMin (trimboth data t)) * b,
    listMean data + (listMax (trimboth data t) - listMean data) * b,
    decide (listMean data - (listMean data - listMin (trimboth data t)) * b ≤ value ∧
      value ≤ listMean data + (listMax (trimboth data t) - listMean data) * b)⟩,
    ?_, rfl, rfl, rfl⟩
  unfold _check_by_min_max
  simp only [if_neg h0, if_neg ht0]

/-- C7 witness: the min/max formula at sample [1, 2, 3], trim 0, boost 2. -/
theorem c7_min_max_formula_witness :
    ([1, 2, 3] : List ℚ) ≠ [] ∧ trimboth [1, 2, 3] 0 ≠ [] ∧
    (∃ r, _check_by_min_max [1, 2, 3] 4 0 2 "check_by_min_max_7_1" = some r ∧
      r.mean = ([1, 2, 3] : List ℚ).sum / ([1, 2, 3] : List ℚ).length ∧
      r.lower = r.mean - (r.mean - listMin (trimboth [1, 2, 3] 0)) * 2 ∧
      r.upper = r.mean + (listMax (trimboth [1, 2, 3] 0) - r.mean) * 2) :=
  ⟨by with_unfolding_all decide, by with_unfolding_all decide,
   c7_min_max_formula [1, 2, 3] 4 0 2 "check_by_min_max_7_1"
     (by with_unfolding_all decide) (by with_unfolding_all decide)⟩

/-- C8: for every sample whose trimmed subset keeps at least 2 elements the
standard-deviation strategy computes centre = trimmed mean (lowest and
highest ⌊t·n⌋ sorted elements removed, remainder averaged), dispersion =
unbiased sample standard deviation (denominator n−1) of the same trimmed
subset, and bounds = centre ∓ dispersion·boost; the source-side `trimboth`
slice coincides with the spec-side `specTrimmedSample` description. -/
theorem c8_stdev_formula (data : List ℚ) (value t b : ℚ) (m : String)
    (h2 : 2 ≤ (trimboth data t).length) :
    specTrimmedSample data t = trimboth data t ∧
    ∃ r, _check_by_stdev data value t b m = some r ∧
      r.mean = listMean (specTrimmedSample data t) ∧
      r.stdev = Real.sqrt (((((specTrimmedSample data t).map
          (fun x => (x - listMean (specTrimmedSample data t)) ^ 2)).sum /
        (((specTrimmedSample data t).length : ℚ) - 1) : ℚ) : ℝ)) ∧
      r.lower = (r.mean : ℝ) - r.stdev * (b : ℝ) ∧
      r.upper = (r.mean : ℝ) + r.stdev * (b : ℝ) := by
  have hs := specTrimmedSample_eq_trimboth data t
  have hlt : ¬((trimboth data t).length < 2) := by omega
  refine ⟨hs, ⟨m, value, t, b, data.length, trim_mean data t,
    pyStdev (trimboth data t),
    (trim_mean data t : ℝ) - pyStdev (trimboth data t) * (b : ℝ),
    (trim_mean data t : ℝ) + pyStdev (trimboth data t) * (b : ℝ),
    decide ((trim_mean data t : ℝ) - pyStdev (trimboth data t) * (b : ℝ) ≤ (value : ℝ) ∧
      (value : ℝ) ≤ (trim_mean data t : ℝ) + pyStdev (trimboth data t) * (b : ℝ))⟩,
    ?_, ?_, ?_, rfl, rfl⟩
  · unfold _check_by_stdev
    simp only [if_neg hlt]
  · rw [hs]
    rfl
  · rw [hs]
    rfl

/-- C8 witness: the standard-deviation formula at sample [1, 2, 3],
trim 0, boost 1. -/
theorem c8_stdev_formula_witness :
    2 ≤ (trimboth [1, 2, 3] 0).length ∧
    (specTrimmedSample [1, 2, 3] 0 = trimboth [1, 2, 3] 0 ∧
    ∃ r, _check_by_stdev [1, 2, 3] 2 0 1 "check_by_stdev" = some r ∧
      r.mean = listMean (specTrimmedSample [1, 2, 3] 0) ∧
      r.stdev = Real.sqrt (((((specTrimmedSample [1, 2, 3] 0).map
          (fun x => (x - listMean (specTrimmedSample [1, 2, 3] 0)) ^ 2)).sum /
        (((specTrimmedSample [1, 2, 3] 0).length : ℚ) - 1) : ℚ) : ℝ)) ∧
      r.lower = (r.mean : ℝ) - r.stdev * ((1 : ℚ) : ℝ) ∧
      r.upper = (r.mean : ℝ) + r.stdev * ((1 : ℚ) : ℝ)) :=
  ⟨by with_unfolding_all decide,
   c8_stdev_formula [1, 2, 3] 2 0 1 "check_by_stdev"
     (by with_unfolding_all decide)⟩

/-- C1 counterexample: (i) the percentage strategy on the negative-mean
sample [-1] (a sample it accepts, under the shipped perc-40 configuration)
computes lower bound −4/5 strictly above upper bound −6/5, refuting
lowerBound ≤ upperBound as stated; (ii) the trimmed min/max strategy on the
15-element sample [-1000, 0, …, 0] — far from degenerate, its dispersion is
not zero — computes equal bounds (both 0) that differ from its centre
statistic −200/3, refuting the claim that equality occurs only for
degenerate samples and that equal bounds coincide with the centre. -/
theorem c1_counterexample :
    (∃ r, check_by_perc_40 [-1] 0 = some r ∧ ¬(r.lower ≤ r.upper)) ∧
    (∃ r, check_by_min_max_7_1
        [-1000, 0, 0, 0, 0, 0, 0, 0, 0, 0, 0, 0, 0, 0, 0] 0 = some r ∧
      r.lower = r.upper ∧ r.lower ≠ r.mean) := by
  constructor
  · exact ⟨⟨"check_by_perc_40", 0, 40, 1, -1, -4/5, -6/5, false⟩,
      by with_unfolding_all decide, by with_unfolding_all decide⟩
  · exact ⟨⟨"check_by_min_max_7_1", 0, 7/100, 1, 15, -200/3, 0, 0, true⟩,
      by with_unfolding_all decide, by with_unfolding_all decide,
      by with_unfolding_all decide⟩

/-- C1 amended: for every accepted historical sample, lowerBound ≤
upperBound holds for the standard-deviation, mean-absolute-error and
trimmed min/max strategies for every positive boost, and for the percentage
strategy (any positive width) whenever the sample mean is non-negative;
equality occurs exactly at zero dispersion of the strategy's own spread
statistic (stdev 0, mean absolute error 0, trimmed max = trimmed min, or
zero mean for the percentage strategy), in which case the stdev, error and
percentage bounds collapse to the centre statistic, while the min/max
bounds collapse to centre + (trimmed max − centre)·boost, which can differ
from the centre statistic. -/
theorem c1_bounds_ordered (data : List ℚ) (value t b p : ℚ) (m : String)
    (hb : 0 < b) (hp : 0 < p) :
    (∀ r, _check_by_stdev data value t b m = some r →
      r.lower ≤ r.upper ∧ (r.lower = r.upper ↔ r.stdev = 0) ∧
      (r.stdev = 0 → r.lower = (r.mean : ℝ) ∧ r.upper = (r.mean : ℝ))) ∧
    (∀ r, _check_by_error data value b m = some r →
      r.lower ≤ r.upper ∧ (r.lower = r.upper ↔ r.error = 0) ∧
      (r.error = 0 → r.lower = r.mean ∧ r.upper = r.mean)) ∧
    (∀ r, _check_by_perc data value p m = some r → 0 ≤ r.mean →
      r.lower ≤ r.upper ∧ (r.lower = r.upper ↔ r.mean = 0) ∧
      (r.mean = 0 → r.lower = r.mean ∧ r.upper = r.mean)) ∧
    (∀ r, _check_by_min_max data value t b m = some r →
      r.lower ≤ r.upper ∧
      (r.lower = r.upper ↔ listMax (trimboth data t) = listMin (trimboth data t)) ∧
      (listMax (trimboth data t) = listMin (trimboth data t) →
        r.lower = r.mean + (listMax (trimboth data t) - r.mean) * b)) := by
  have hbR : (0 : ℝ) < (b : ℝ) := by exact_mod_cast hb
  refine ⟨?_, ?_, ?_, ?_⟩
  · intro r hr
    unfold _check_by_stdev at hr
    by_cases hc : (trimboth data t).length < 2
    · simp only [if_pos hc] at hr
      exact Option.noConfusion hr
    · simp only [if_neg hc, Option.some.injEq] at hr
      subst hr
      dsimp only
      have hs : 0 ≤ pyStdev (trimboth data t) := Real.sqrt_nonneg _
      refine ⟨by nlinarith, ⟨?_, ?_⟩, ?_⟩
      · intro he
        have hz : pyStdev (trimboth data t) * (b : ℝ) = 0 := by linarith
        rcases mul_eq_zero.mp hz with h | h
        · exact h
        · exact absurd h (ne_of_gt hbR)
      · intro he
        rw [he]
        ring
      · intro he
        rw [he]
        constructor <;> ring
  · intro r hr
    unfold _check_by_error at hr
    by_cases h0 : data.length = 0
    · rw [if_pos h0] at hr
      exact Option.noConfusion hr
    · rw [if_neg h0] at hr
      simp only [Option.some.injEq] at hr
      subst hr
      dsimp only
      have he : 0 ≤ listMean (data.map (fun i => |i - listMean data|)) :=
        listMean_abs_nonneg data _
      refine ⟨by nlinarith, ⟨?_, ?_⟩, ?_⟩
      · intro heq
        have hz : listMean (data.map (fun i => |i - listMean data|)) * b = 0 := by
          linarith
        rcases mul_eq_zero.mp hz with h | h
        · exact h
        · exact absurd h (ne_of_gt hb)
      · intro heq
        rw [heq]
        ring
      · intro heq
        rw [heq]
        constructor <;> ring
  · intro r hr
    unfold _check_by_perc at hr
    by_cases h0 : data.length = 0
    · rw [if_pos h0] at hr
      exact Option.noConfusion hr
    · rw [if_neg h0] at hr
      simp only [Option.some.injEq] at hr
      subst hr
      dsimp only
      intro hm
      have hw : 0 ≤ listMean data * (p / 100 / 2) :=
        mul_nonneg hm (by positivity)
      refine ⟨by nlinarith, ⟨?_, ?_⟩, ?_⟩
      · intro heq
        have hz : listMean data * (p / 100 / 2) = 0 := by linarith
        rcases mul_eq_zero.mp hz with h | h
        · exact h
        · exact absurd h (by positivity)
      · intro heq
        rw [heq]
        ring
      · intro heq
        rw [heq]
        constructor <;> ring
  · intro r hr
    unfold _check_by_min_max at hr
    by_cases h0 : data.length = 0
    · rw [if_pos h0] at hr
      exact Option.noConfusion hr
    · simp only [if_neg h0] at hr
      by_cases ht0 : (trimboth data t).length = 0
      · simp only [if_pos ht0] at hr
        exact Option.noConfusion hr
      · simp only [if_neg ht0, Option.some.injEq] at hr
        subst hr
        have htne : trimboth data t ≠ [] := by
          intro hcon
          rw [hcon] at ht0
          exact ht0 rfl
        dsimp only
        have hmm : listMin (trimboth data t) ≤ listMax (trimboth data t) :=
          listMin_le_listMax htne
        refine ⟨by nlinarith, ⟨?_, ?_⟩, ?_⟩
        · intro heq
          have hz : (listMax (trimboth data t) - listMin (trimboth data t)) * b = 0 := by
            linarith
          rcases mul_eq_zero.mp hz with h | h
          · linarith [sub_eq_zero.mp h]
          · exact absurd h (ne_of_gt hb)
        · intro heq
          rw [heq]
          ring
        · intro heq
          rw [heq]
          ring

/-- C1 witness: the amended ordering statement at sample [1, 2, 3] with
trim 0, boost 1, percentage 40. -/
theorem c1_bounds_ordered_witness :
    (0 : ℚ) < 1 ∧ (0 : ℚ) < 40 ∧
    ((∀ r, _check_by_stdev [1, 2, 3] 0 0 1 "w" = some r →
      r.lower ≤ r.upper ∧ (r.lower = r.upper ↔ r.stdev = 0) ∧
      (r.stdev = 0 → r.lower = (r.mean : ℝ) ∧ r.upper = (r.mean : ℝ))) ∧
    (∀ r, _check_by_error [1, 2, 3] 0 1 "w" = some r →
      r.lower ≤ r.upper ∧ (r.lower = r.upper ↔ r.error = 0) ∧
      (r.error = 0 → r.lower = r.mean ∧ r.upper = r.mean)) ∧
    (∀ r, _check_by_perc [1, 2, 3] 0 40 "w" = some r → 0 ≤ r.mean →
      r.lower ≤ r.upper ∧ (r.lower = r.upper ↔ r.mean = 0) ∧
      (r.mean = 0 → r.lower = r.mean ∧ r.upper = r.mean)) ∧
    (∀ r, _check_by_min_max [1, 2, 3] 0 0 1 "w" = some r →
      r.lower ≤ r.upper ∧
      (r.lower = r.upper ↔ listMax (trimboth [1, 2, 3] 0) = listMin (trimboth [1, 2, 3] 0)) ∧
      (listMax (trimboth [1, 2, 3] 0) = listMin (trimboth [1, 2, 3] 0) →
        r.lower = r.mean + (listMax (trimboth [1, 2, 3] 0) - r.mean) * 1))) :=
  ⟨by norm_num, by norm_num,
   c1_bounds_ordered [1, 2, 3] 0 0 1 40 "w" (by norm_num) (by norm_num)⟩

/-- C2 counterexample: the percentage strategy on the sample [-1] judges
the candidate −6/5, exactly equal to the computed upper bound, as FAIL,
because the bounds are inverted (lower −4/5 > upper −6/5); so a
boundary-equal candidate does not always PASS as claimed. -/
theorem c2_counterexample :
    ∃ r, check_by_perc_40 [-1] (-6/5) = some r ∧
      r.value = r.upper ∧ r.verdict = false := by
  refine ⟨⟨"check_by_perc_40", -6/5, 40, 1, -1, -4/5, -6/5, false⟩,
    by with_unfolding_all decide, by with_unfolding_all decide,
    by with_unfolding_all decide⟩

/-- C2 amended: for every strategy and accepted sample the verdict is PASS
iff lowerBound ≤ value ≤ upperBound, inclusive on both ends; a candidate
exactly equal to either bound yields PASS provided lowerBound ≤ upperBound
(a proviso only the percentage strategy on a negative-mean sample can
violate). -/
theorem c2_verdict_iff_in_bounds (data : List ℚ) (value t b p : ℚ)
    (m : String) :
    (∀ r, _check_by_stdev data value t b m = some r →
      (r.verdict = true ↔ r.lower ≤ (value : ℝ) ∧ (value : ℝ) ≤ r.upper) ∧
      (r.lower ≤ r.upper → ((value : ℝ) = r.lower ∨ (value : ℝ) = r.upper) →
        r.verdict = true)) ∧
    (∀ r, _check_by_error data value b m = some r →
      (r.verdict = true ↔ r.lower ≤ value ∧ value ≤ r.upper) ∧
      (r.lower ≤ r.upper → (value = r.lower ∨ value = r.upper) →
        r.verdict = true)) ∧
    (∀ r, _check_by_perc data value p m = some r →
      (r.verdict = true ↔ r.lower ≤ value ∧ value ≤ r.upper) ∧
      (r.lower ≤ r.upper → (value = r.lower ∨ value = r.upper) →
        r.verdict = true)) ∧
    (∀ r, _check_by_min_max data value t b m = some r →
      (r.verdict = true ↔ r.lower ≤ value ∧ value ≤ r.upper) ∧
      (r.lower ≤ r.upper → (value = r.lower ∨ value = r.upper) →
        r.verdict = true)) := by
  refine ⟨?_, ?_, ?_, ?_⟩
  · intro r hr
    unfold _check_by_stdev at hr
    by_cases hc : (trimboth data t).length < 2
    · simp only [if_pos hc] at hr
      exact Option.noConfusion hr
    · simp only [if_neg hc, Option.some.injEq] at hr
      subst hr
      dsimp only
      refine ⟨by rw [decide_eq_true_eq], ?_⟩
      intro hle hv
      rw [decide_eq_true_eq]
      exact within_bounds_of_eq_bound hle hv
  · intro r hr
    unfold _check_by_error at hr
    by_cases h0 : data.length = 0
    · rw [if_pos h0] at hr
      exact Option.noConfusion hr
    · rw [if_neg h0] at hr
      simp only [Option.some.injEq] at hr
      subst hr
      dsimp only
      refine ⟨by rw [decide_eq_true_eq], ?_⟩
      intro hle hv
      rw [decide_eq_true_eq]
      exact within_bounds_of_eq_bound hle hv
  · intro r hr
    unfold _check_by_perc at hr
    by_cases h0 : data.length = 0
    · rw [if_pos h0] at hr
      exact Option.noConfusion hr
    · rw [if_neg h0] at hr
      simp only [Option.some.injEq] at hr
      subst hr
      dsimp only
      refine ⟨by rw [decide_eq_true_eq], ?_⟩
      intro hle hv
      rw [decide_eq_true_eq]
      exact within_bounds_of_eq_bound hle hv
  · intro r hr
    unfold _check_by_min_max at hr
    by_cases h0 : data.length = 0
    · rw [if_pos h0] at hr
      exact Option.noConfusion hr
    · simp only [if_neg h0] at hr
      by_cases ht0 : (trimboth data t).length = 0
      · simp only [if_pos ht0] at hr
        exact Option.noConfusion hr
      · simp only [if_neg ht0, Option.some.injEq] at hr
        subst hr
        dsimp only
        refine ⟨by rw [decide_eq_true_eq], ?_⟩
        intro hle hv
        rw [decide_eq_true_eq]
        exact within_bounds_of_eq_bound hle hv

/-- C2 witness: the amended verdict characterisation at sample [1, 2, 3]
with candidate 1, trim 0, boost 1, percentage 40. -/
theorem c2_verdict_iff_in_bounds_witness :
    (∀ r, _check_by_stdev [1, 2, 3] 1 0 1 "w" = some r →
      (r.verdict = true ↔ r.lower ≤ ((1 : ℚ) : ℝ) ∧ ((1 : ℚ) : ℝ) ≤ r.upper) ∧
      (r.lower ≤ r.upper → (((1 : ℚ) : ℝ) = r.lower ∨ ((1 : ℚ) : ℝ) = r.upper) →
        r.verdict = true)) ∧
    (∀ r, _check_by_error [1, 2, 3] 1 1 "w" = some r →
      (r.verdict = true ↔ r.lower ≤ 1 ∧ 1 ≤ r.upper) ∧
      (r.lower ≤ r.upper → ((1 : ℚ) = r.lower ∨ (1 : ℚ) = r.upper) →
        r.verdict = true)) ∧
    (∀ r, _check_by_perc [1, 2, 3] 1 40 "w" = some r →
      (r.verdict = true ↔ r.lower ≤ 1 ∧ 1 ≤ r.upper) ∧
      (r.lower ≤ r.upper → ((1 : ℚ) = r.lower ∨ (1 : ℚ) = r.upper) →
        r.verdict = true)) ∧
    (∀ r, _check_by_min_max [1, 2, 3] 1 0 1 "w" = some r →
      (r.verdict = true ↔ r.lower ≤ 1 ∧ 1 ≤ r.upper) ∧
      (r.lower ≤ r.upper → ((1 : ℚ) = r.lower ∨ (1 : ℚ) = r.upper) →
        r.verdict = true)) :=
  c2_verdict_iff_in_bounds [1, 2, 3] 1 0 1 40 "w"

/-- C5 counterexample: trimmed min/max on the 15-element sample
[-1000, 0, …, 0]: trim 0.07 cuts one element per end, so the trimmed set is
thirteen zeros while the untrimmed mean is −200/3; raising the boost from 1
(check_by_min_max_7_1) to 2 (check_by_min_max_7_2) RAISES the lower bound
from 0 to 200/3, so the lower bound does not widen monotonically. -/
theorem c5_counterexample :
    ∃ r1 r2,
      check_by_min_max_7_1
        [-1000, 0, 0, 0, 0, 0, 0, 0, 0, 0, 0, 0, 0, 0, 0] 0 = some r1 ∧
      check_by_min_max_7_2
        [-1000, 0, 0, 0, 0, 0, 0, 0, 0, 0, 0, 0, 0, 0, 0] 0 = some r2 ∧
      r1.lower < r2.lower := by
  refine ⟨⟨"check_by_min_max_7_1", 0, 7/100, 1, 15, -200/3, 0, 0, true⟩,
    ⟨"check_by_min_max_7_2", 0, 7/100, 2, 15, -200/3, 200/3, 200/3, false⟩,
    by with_unfolding_all decide, by with_unfolding_all decide,
    by with_unfolding_all decide⟩

/-- C5 amended: for a fixed sample, increasing the boost widens or leaves
unchanged both bounds of the standard-deviation and mean-absolute-error
strategies unconditionally, and of the trimmed min/max strategy provided
the untrimmed mean lies between the trimmed minimum and maximum; increasing
the percentage strictly widens the width of the percentage-strategy
interval for any sample with nonzero mean. -/
theorem c5_monotonicity (data : List ℚ) (value t b1 b2 p1 p2 : ℚ)
    (m : String) (hb1 : 0 ≤ b1) (hb : b1 ≤ b2) (hp1 : 0 ≤ p1) (hp : p1 < p2) :
    (∀ r1 r2, _check_by_stdev data value t b1 m = some r1 →
      _check_by_stdev data value t b2 m = some r2 →
      r2.lower ≤ r1.lower ∧ r1.upper ≤ r2.upper) ∧
    (∀ r1 r2, _check_by_error data value b1 m = some r1 →
      _check_by_error data value b2 m = some r2 →
      r2.lower ≤ r1.lower ∧ r1.upper ≤ r2.upper) ∧
    (∀ r1 r2, _check_by_min_max data value t b1 m = some r1 →
      _check_by_min_max data value t b2 m = some r2 →
      listMin (trimboth data t) ≤ r1.mean → r1.mean ≤ listMax (trimboth data t) →
      r2.lower ≤ r1.lower ∧ r1.upper ≤ r2.upper) ∧
    (∀ r1 r2, _check_by_perc data value p1 m = some r1 →
      _check_by_perc data value p2 m = some r2 → r1.mean ≠ 0 →
      |r1.upper - r1.lower| < |r2.upper - r2.lower|) := by
  have hbR1 : (0 : ℝ) ≤ (b1 : ℝ) := by exact_mod_cast hb1
  have hbR : (b1 : ℝ) ≤ (b2 : ℝ) := by exact_mod_cast hb
  refine ⟨?_, ?_, ?_, ?_⟩
  · intro r1 r2 hr1 hr2
    unfold _check_by_stdev at hr1 hr2
    by_cases hc : (trimboth data t).length < 2
    · simp only [if_pos hc] at hr1
      exact Option.noConfusion hr1
    · simp only [if_neg hc, Option.some.injEq] at hr1 hr2
      subst hr1
      subst hr2
      dsimp only
      have hs : 0 ≤ pyStdev (trimboth data t) := Real.sqrt_nonneg _
      constructor <;> nlinarith [mul_le_mul_of_nonneg_left hbR hs]
  · intro r1 r2 hr1 hr2
    unfold _check_by_error at hr1 hr2
    by_cases h0 : data.length = 0
    · rw [if_pos h0] at hr1
      exact Option.noConfusion hr1
    · rw [if_neg h0] at hr1 hr2
      simp only [Option.some.injEq] at hr1 hr2
      subst hr1
      subst hr2
      dsimp only
      have he : 0 ≤ listMean (data.map (fun i => |i - listMean data|)) :=
        listMean_abs_nonneg data _
      constructor <;> nlinarith [mul_le_mul_of_nonneg_left hb he]
  · intro r1 r2 hr1 hr2
    unfold _check_by_min_max at hr1 hr2
    by_cases h0 : data.length = 0
    · rw [if_pos h0] at hr1
      exact Option.noConfusion hr1
    · simp only [if_neg h0] at hr1 hr2
      by_cases ht0 : (trimboth data t).length = 0
      · simp only [if_pos ht0] at hr1
        exact Option.noConfusion hr1
      · simp only [if_neg ht0, Option.some.injEq] at hr1 hr2
        subst hr1
        subst hr2
        dsimp only
        intro hmin hmax
        constructor
        · nlinarith [sub_nonneg.mpr hmin]
        · nlinarith [sub_nonneg.mpr hmax]
  · intro r1 r2 hr1 hr2
    unfold _check_by_perc at hr1 hr2
    by_cases h0 : data.length = 0
    · rw [if_pos h0] at hr1
      exact Option.noConfusion hr1
    · rw [if_neg h0] at hr1 hr2
      simp only [Option.some.injEq] at hr1 hr2
      subst hr1
      subst hr2
      dsimp only
      intro hmean
      have hp2 : (0 : ℚ) ≤ p2 := le_of_lt (lt_of_le_of_lt hp1 hp)
      have e1 : listMean data + listMean data * (p1 / 100 / 2) -
          (listMean data - listMean data * (p1 / 100 / 2)) =
          listMean data * (p1 / 100) := by ring
      have e2 : listMean data + listMean data * (p2 / 100 / 2) -
          (listMean data - listMean data * (p2 / 100 / 2)) =
          listMean data * (p2 / 100) := by ring
      rw [e1, e2, abs_mul, abs_mul,
        abs_of_nonneg (div_nonneg hp1 (by norm_num : (0:ℚ) ≤ 100)),
        abs_of_nonneg (div_nonneg hp2 (by norm_num : (0:ℚ) ≤ 100))]
      apply mul_lt_mul_of_pos_left _ (abs_pos.mpr hmean)
      linarith

/-- C5 witness: the amended monotonicity statement at sample [1, 2, 3] with
trim 0, boosts 1 ≤ 2, percentages 40 < 60. -/
theorem c5_monotonicity_witness :
    (0 : ℚ) ≤ 1 ∧ (1 : ℚ) ≤ 2 ∧ (0 : ℚ) ≤ 40 ∧ (40 : ℚ) < 60 ∧
    ((∀ r1 r2, _check_by_stdev [1, 2, 3] 0 0 1 "w" = some r1 →
      _check_by_stdev [1, 2, 3] 0 0 2 "w" = some r2 →
      r2.lower ≤ r1.lower ∧ r1.upper ≤ r2.upper) ∧
    (∀ r1 r2, _check_by_error [1, 2, 3] 0 1 "w" = some r1 →
      _check_by_error [1, 2, 3] 0 2 "w" = some r2 →
      r2.lower ≤ r1.lower ∧ r1.upper ≤ r2.upper) ∧
    (∀ r1 r2, _check_by_min_max [1, 2, 3] 0 0 1 "w" = some r1 →
      _check_by_min_max [1, 2, 3] 0 0 2 "w" = some r2 →
      listMin (trimboth [1, 2, 3] 0) ≤ r1.mean →
      r1.mean ≤ listMax (trimboth [1, 2, 3] 0) →
      r2.lower ≤ r1.lower ∧ r1.upper ≤ r2.upper) ∧
    (∀ r1 r2, _check_by_perc [1, 2, 3] 0 40 "w" = some r1 →
      _check_by_perc [1, 2, 3] 0 60 "w" = some r2 → r1.mean ≠ 0 →
      |r1.upper - r1.lower| < |r2.upper - r2.lower|)) :=
  ⟨by norm_num, by norm_num, by norm_num, by norm_num,
   c5_monotonicity [1, 2, 3] 0 0 1 2 40 60 "w" (by norm_num) (by norm_num)
     (by norm_num) (by norm_num)⟩

end OPL
